import Mathlib

/-!
Verification of the Mend eating/reflection signal engine.

Shallow embedding of `app/services/audio_processor.py`,
`app/services/feedback_manager.py` and `app/services/sentiment_analyzer.py`.
Python floats are embedded as rationals (ℚ), Python dicts as association
lists with first-match lookup, and fallible external collaborators
(feature extraction, the language-understanding call, the event-history
lookup, notification dispatch) as explicit `Except`/`Bool` oracle inputs.
-/

/-- A Python feature dict: association list from feature name to value. -/
abbrev Features := List (String × ℚ)

/-- Python `features.get(key, 0)`: first matching key, default `0`. -/
def getFeature (fs : Features) (key : String) : ℚ :=
  match fs with
  | [] => 0
  | (k, v) :: rest => if k == key then v else getFeature rest key

/-- Configuration of `AudioProcessor.__init__`. -/
structure AudioProcessor where
  eating_confidence_threshold : ℚ
  zcr_threshold : ℚ
  energy_threshold : ℚ
deriving DecidableEq, Repr

/-- Default thresholds set in `AudioProcessor.__init__`. -/
def audioProcessorDefault : AudioProcessor :=
  { eating_confidence_threshold := 6/10
    zcr_threshold := 15/100
    energy_threshold := 2/100 }

/-- Embeds `AudioProcessor._detect_eating`: heuristic eating detection over a
feature dict.  Empty dict is the failure sentinel, returning `(false, 0)`.
Otherwise four predicates each append a fixed weight to
`confidence_factors`; confidence is their sum and detection compares it
with the threshold. -/
def detect_eating (ap : AudioProcessor) (features : Features) : Bool × ℚ :=
  if features.isEmpty then
    (false, 0)
  else
    let zcr_mean := getFeature features "zcr_mean"
    let rms_mean := getFeature features "rms_mean"
    let spectral_centroid := getFeature features "spectral_centroid"
    let spectral_rolloff := getFeature features "spectral_rolloff"
    let confidence_factors : List ℚ :=
      (if 5/100 < zcr_mean ∧ zcr_mean < 25/100 then [3/10] else []) ++
      (if rms_mean > ap.energy_threshold then [3/10] else []) ++
      (if spectral_centroid > 1000 then [2/10] else []) ++
      (if spectral_rolloff > 2000 then [2/10] else [])
    let confidence := confidence_factors.sum
    (decide (confidence ≥ ap.eating_confidence_threshold), confidence)

/-- Result model of `AudioAnalysisResult`. -/
structure AudioAnalysisResult where
  eating_detected : Bool
  confidence : ℚ
  audio_features : Option Features
deriving DecidableEq, Repr

/-- Embeds `AudioProcessor.analyze_audio`: the feature-extraction stage is an
oracle input — `Except.error` models an exception escaping to the outer
`try` (e.g. a malformed buffer in `np.frombuffer`), while `Except.ok []`
models `_extract_features` catching its own failure and returning the
empty-dict sentinel. -/
def analyze_audio (ap : AudioProcessor) (extraction : Except Unit Features) :
    AudioAnalysisResult :=
  match extraction with
  | .error _ => ⟨false, 0, none⟩
  | .ok features =>
      let r := detect_eating ap features
      ⟨r.1, r.2, some features⟩

/-- The midpoint feature values named by the spec. -/
def midFeatures : Features :=
  [("zcr_mean", 15/100), ("rms_mean", 5/100),
   ("spectral_centroid", 1500), ("spectral_rolloff", 2500)]

/-- For a non-empty feature dict, the confidence computed by
`detect_eating` is the sum of the weights of the satisfied predicates. -/
lemma detect_eating_nonempty (ap : AudioProcessor) (features : Features)
    (h : features ≠ []) :
    detect_eating ap features =
      (decide ((if 5/100 < getFeature features "zcr_mean" ∧
                  getFeature features "zcr_mean" < 25/100 then (3:ℚ)/10 else 0) +
        (if getFeature features "rms_mean" > ap.energy_threshold then (3:ℚ)/10 else 0) +
        (if getFeature features "spectral_centroid" > 1000 then (2:ℚ)/10 else 0) +
        (if getFeature features "spectral_rolloff" > 2000 then (2:ℚ)/10 else 0)
          ≥ ap.eating_confidence_threshold),
       (if 5/100 < getFeature features "zcr_mean" ∧
            getFeature features "zcr_mean" < 25/100 then (3:ℚ)/10 else 0) +
        (if getFeature features "rms_mean" > ap.energy_threshold then (3:ℚ)/10 else 0) +
        (if getFeature features "spectral_centroid" > 1000 then (2:ℚ)/10 else 0) +
        (if getFeature features "spectral_rolloff" > 2000 then (2:ℚ)/10 else 0)) := by
  have hne : features.isEmpty = false := by
    cases features with
    | nil => exact absurd rfl h
    | cons a l => rfl
  unfold detect_eating
  rw [hne]
  simp only [Bool.false_eq_true, if_false]
  split_ifs <;> simp [List.sum_cons, List.sum_nil, add_assoc]

/-- Claim C2: for every non-empty feature mapping, the confidence returned
by eating detection equals the sum of the weights of exactly the satisfied
predicates (0.3 if 0.05 < zcr_mean < 0.25, 0.3 if rms_mean > 0.02, 0.2 if
spectral_centroid > 1000, 0.2 if spectral_rolloff > 2000), and
eating_detected is true iff that sum is ≥ 0.6; in particular at the
midpoint features (zcr_mean=0.15, rms_mean=0.05, spectral_centroid=1500,
spectral_rolloff=2500) the confidence is 1.0 and eating is detected. -/
theorem detect_eating_confidence_claim :
    (∀ features : Features, features ≠ [] →
      (detect_eating audioProcessorDefault features).2 =
        (if 5/100 < getFeature features "zcr_mean" ∧
            getFeature features "zcr_mean" < 25/100 then (3:ℚ)/10 else 0) +
        (if getFeature features "rms_mean" > 2/100 then (3:ℚ)/10 else 0) +
        (if getFeature features "spectral_centroid" > 1000 then (2:ℚ)/10 else 0) +
        (if getFeature features "spectral_rolloff" > 2000 then (2:ℚ)/10 else 0) ∧
      ((detect_eating audioProcessorDefault features).1 = true ↔
        (detect_eating audioProcessorDefault features).2 ≥ 6/10)) ∧
    detect_eating audioProcessorDefault midFeatures = (true, 1) := by
  constructor
  · intro features h
    rw [detect_eating_nonempty audioProcessorDefault features h]
    refine ⟨rfl, ?_⟩
    simp [audioProcessorDefault, decide_eq_true_iff]
  · rw [detect_eating_nonempty audioProcessorDefault midFeatures (by decide)]
    have h1 : getFeature midFeatures "zcr_mean" = 15/100 := rfl
    have h2 : getFeature midFeatures "rms_mean" = 5/100 := rfl
    have h3 : getFeature midFeatures "spectral_centroid" = 1500 := rfl
    have h4 : getFeature midFeatures "spectral_rolloff" = 2500 := rfl
    rw [h1, h2, h3, h4]
    norm_num [audioProcessorDefault, Prod.mk.injEq]

/-- Witness for C2 at the spec's midpoint feature values. -/
theorem detect_eating_confidence_claim_witness :
    midFeatures ≠ [] ∧
    ((detect_eating audioProcessorDefault midFeatures).2 =
        (if 5/100 < getFeature midFeatures "zcr_mean" ∧
            getFeature midFeatures "zcr_mean" < 25/100 then (3:ℚ)/10 else 0) +
        (if getFeature midFeatures "rms_mean" > 2/100 then (3:ℚ)/10 else 0) +
        (if getFeature midFeatures "spectral_centroid" > 1000 then (2:ℚ)/10 else 0) +
        (if getFeature midFeatures "spectral_rolloff" > 2000 then (2:ℚ)/10 else 0) ∧
      ((detect_eating audioProcessorDefault midFeatures).1 = true ↔
        (detect_eating audioProcessorDefault midFeatures).2 ≥ 6/10)) :=
  ⟨by decide, detect_eating_confidence_claim.1 midFeatures (by decide)⟩

/-- Claim C5: for every empty or malformed audio buffer — one whose
feature extraction fails, either by yielding the empty-feature sentinel or
by raising to the outer handler — audio analysis returns
`eating_detected = false` and `confidence = 0`, without raising. -/
theorem empty_audio_claim :
    ∀ ap : AudioProcessor,
      ((analyze_audio ap (Except.ok [])).eating_detected = false ∧
       (analyze_audio ap (Except.ok [])).confidence = 0) ∧
      ((analyze_audio ap (Except.error ())).eating_detected = false ∧
       (analyze_audio ap (Except.error ())).confidence = 0) := by
  intro ap
  exact ⟨⟨rfl, rfl⟩, ⟨rfl, rfl⟩⟩

/-- Claim C10: for every feature mapping (including empty and malformed
ones) and every configuration, the confidence returned by eating detection
lies in the finite set of subset sums of the weights {0.3, 0.3, 0.2, 0.2},
hence 0 ≤ confidence ≤ 1 always holds even though no explicit clamping is
performed. -/
theorem confidence_bounded_claim :
    ∀ (ap : AudioProcessor) (features : Features),
      (detect_eating ap features).2 ∈
        ([0, 2/10, 3/10, 4/10, 5/10, 6/10, 7/10, 8/10, 1] : List ℚ) ∧
      0 ≤ (detect_eating ap features).2 ∧ (detect_eating ap features).2 ≤ 1 := by
  intro ap features
  unfold detect_eating
  split
  · norm_num
  · dsimp only
    split_ifs <;> norm_num [List.sum_append, List.sum_cons, List.sum_nil]

/-- Embeds `FeedbackManager._can_send_feedback`: the event-history lookup
`db.get_last_feedback_time(uid)` is an oracle input.  `Except.error`
models the lookup raising; timestamps are seconds as rationals, `now`
being `datetime.utcnow()`. -/
def can_send_feedback (cooldown_seconds : ℚ)
    (lastFeedback : Except Unit (Option ℚ)) (now : ℚ) : Bool :=
  match lastFeedback with
  | .error _ => true
  | .ok none => true
  | .ok (some t) => decide (now - t ≥ cooldown_seconds)

/-- Embeds `FeedbackManager.send_feedback`: the rate-limit gate, with the
notification dispatch collaborator's success flag as an oracle input. -/
def send_feedback (cooldown_seconds : ℚ) (force : Bool)
    (lastFeedback : Except Unit (Option ℚ)) (now : ℚ)
    (notifySuccess : Bool) : Bool :=
  if !force && !(can_send_feedback cooldown_seconds lastFeedback now) then
    false
  else
    notifySuccess

/-- Embeds `FeedbackManager.should_send_rushed_feedback`: integer durations,
compared against `expected_duration * 0.5` in rational arithmetic. -/
def should_send_rushed_feedback (meal_duration : ℤ)
    (expected_duration : ℤ := 900) : Bool :=
  decide ((meal_duration : ℚ) < (expected_duration : ℚ) * (5/10))

/-- Claim C3: with `cooldown_seconds = 300` and no `force`: no prior
feedback timestamp permits sending; a prior timestamp permits sending iff
the elapsed time is ≥ 300 seconds; in particular elapsed 100 seconds
suppresses and elapsed 400 seconds permits, and a suppressed check makes
`send_feedback` return false without dispatching. -/
theorem cooldown_claim :
    (∀ now : ℚ, can_send_feedback 300 (Except.ok none) now = true) ∧
    (∀ now t : ℚ,
      can_send_feedback 300 (Except.ok (some t)) now = true ↔ now - t ≥ 300) ∧
    can_send_feedback 300 (Except.ok (some 0)) 100 = false ∧
    can_send_feedback 300 (Except.ok (some 0)) 400 = true ∧
    (∀ notifySuccess : Bool,
      send_feedback 300 false (Except.ok (some 0)) 100 notifySuccess = false) := by
  refine ⟨fun now => rfl, fun now t => ?_, ?_, ?_, fun ns => ?_⟩
  · simp [can_send_feedback]
  · simp [can_send_feedback]
    norm_num
  · simp [can_send_feedback]
    norm_num
  · simp [send_feedback, can_send_feedback]
    norm_num

/-- Claim C4: if the last-feedback-time lookup raises, the cooldown check
fails open — sending is permitted, and absent `force` the dispatch attempt
proceeds (the call's outcome is whatever the notification collaborator
returns). -/
theorem cooldown_fail_open_claim :
    ∀ (cooldown_seconds now : ℚ),
      can_send_feedback cooldown_seconds (Except.error ()) now = true ∧
      (∀ notifySuccess : Bool,
        send_feedback cooldown_seconds false (Except.error ()) now notifySuccess =
          notifySuccess) := by
  intro c now
  exact ⟨rfl, fun ns => rfl⟩

/-- Claim C6: the rushed-meal decision is true iff
`meal_duration < expected_duration * 0.5`; with the default expected
duration 900 this is exactly `meal_duration < 450`, so duration 400 is
rushed and duration 500 is not. -/
theorem rushed_meal_claim :
    (∀ meal_duration expected_duration : ℤ,
      should_send_rushed_feedback meal_duration expected_duration = true ↔
        (meal_duration : ℚ) < (expected_duration : ℚ) * (5/10)) ∧
    (∀ meal_duration : ℤ,
      should_send_rushed_feedback meal_duration 900 = decide (meal_duration < 450)) ∧
    should_send_rushed_feedback 400 900 = true ∧
    should_send_rushed_feedback 500 900 = false := by
  refine ⟨fun md ed => ?_, fun md => ?_, ?_, ?_⟩
  · simp [should_send_rushed_feedback]
  · simp only [should_send_rushed_feedback, decide_eq_decide]
    constructor
    · intro h
      have h450 : (md : ℚ) < 450 := by
        calc (md : ℚ) < (900 : ℚ) * (5/10) := h
        _ = 450 := by norm_num
      exact_mod_cast h450
    · intro h
      have h450 : (md : ℚ) < 450 := by exact_mod_cast h
      calc (md : ℚ) < 450 := h450
      _ = (900 : ℚ) * (5/10) := by norm_num
  · simp [should_send_rushed_feedback]
    norm_num
  · simp [should_send_rushed_feedback]
    norm_num

/-- Tests whether `needle` is a leading segment of `hay` (character lists). -/
def charsStartWith (needle hay : List Char) : Bool :=
  match needle, hay with
  | [], _ => true
  | _ :: _, [] => false
  | c :: cs, d :: ds => c == d && charsStartWith cs ds

/-- Tests whether `needle` occurs contiguously inside `hay`, the semantics
of the Python `in` operator on strings. -/
def charsContain (hay needle : List Char) : Bool :=
  match hay with
  | [] => needle.isEmpty
  | c :: rest => charsStartWith needle (c :: rest) || charsContain rest needle

/-- Python `needle in hay` on strings. -/
def strContains (hay needle : String) : Bool :=
  charsContain hay.data needle.data

/-- Python `str.lower`. -/
def lowerStr (s : String) : String :=
  ⟨s.data.map Char.toLower⟩

/-- The trigger-word list set in `SentimentAnalyzer.__init__`. -/
def reflection_keywords : List String :=
  ["feel", "felt", "feeling",
   "was", "were", "seemed",
   "too fast", "too slow", "rushed",
   "mindful", "aware", "noticed",
   "enjoyed", "satisfying", "satisfied",
   "stressed", "anxious", "calm"]

/-- The `SentimentType` enum. -/
inductive SentimentType where
  | calm
  | stressed
  | neutral
  | rushed
  | mindful
deriving DecidableEq, Repr

/-- Result model of `ReflectionAnalysis`. -/
structure ReflectionAnalysis where
  text : String
  sentiment : SentimentType
  is_reflective : Bool
  keywords : List String
  tone_indicators : List (String × ℚ)
deriving DecidableEq, Repr

/-- Embeds `SentimentAnalyzer._is_reflective`: any trigger word occurs in
the lowercased text. -/
def is_reflective (text : String) : Bool :=
  reflection_keywords.any (fun kw => strContains (lowerStr text) kw)

/-- Embeds `SentimentAnalyzer._extract_keywords`: the trigger words that
occur in the lowercased text, in trigger-list order. -/
def extract_keywords (text : String) : List String :=
  reflection_keywords.filter (fun kw => strContains (lowerStr text) kw)

/-- Embeds `SentimentAnalyzer._parse_sentiment`: lowercase and map through
the sentiment table, defaulting to neutral. -/
def parse_sentiment (s : String) : SentimentType :=
  match lowerStr s with
  | "calm" => SentimentType.calm
  | "stressed" => SentimentType.stressed
  | "neutral" => SentimentType.neutral
  | "rushed" => SentimentType.rushed
  | "mindful" => SentimentType.mindful
  | _ => SentimentType.neutral

/-- The fields the code reads out of the model's JSON reply, each possibly
absent (`result.get` with a default). -/
structure LLMResponse where
  sentiment : Option String
  tone_indicators : Option (List (String × ℚ))
deriving DecidableEq, Repr

/-- Embeds `SentimentAnalyzer._analyze_with_llm`.  The outbound call and
JSON decoding are an oracle input: `Except.error` models any exception
raised up to and including `json.loads` (transport error, timeout,
unparseable body), which the method catches itself, returning
`(neutral, {})`; `Except.ok` carries the decoded reply. -/
def analyze_with_llm (outcome : Except Unit LLMResponse) :
    SentimentType × List (String × ℚ) :=
  match outcome with
  | .error _ => (SentimentType.neutral, [])
  | .ok r => (parse_sentiment (r.sentiment.getD "neutral"), r.tone_indicators.getD [])

/-- Embeds `SentimentAnalyzer.analyze_reflection` over the LLM oracle. -/
def analyze_reflection (text : String) (llm : Except Unit LLMResponse) :
    ReflectionAnalysis :=
  if is_reflective text then
    let st := analyze_with_llm llm
    ⟨text, st.1, true, extract_keywords text, st.2⟩
  else
    ⟨text, SentimentType.neutral, false, [], []⟩

/-- Instrumented variant of `analyze_with_llm` that also reports how many
outbound requests the call attempts: exactly one, issued before any
decoding of the reply, whatever the outcome. -/
def analyze_with_llm_traced (outcome : Except Unit LLMResponse) :
    (SentimentType × List (String × ℚ)) × Nat :=
  (analyze_with_llm outcome, 1)

/-- Instrumented variant of `analyze_reflection` that also counts outbound
language-understanding requests. -/
def analyze_reflection_traced (text : String) (llm : Except Unit LLMResponse) :
    ReflectionAnalysis × Nat :=
  if is_reflective text then
    let str := analyze_with_llm_traced llm
    (⟨text, str.1.1, true, extract_keywords text, str.1.2⟩, str.2)
  else
    (⟨text, SentimentType.neutral, false, [], []⟩, 0)

/-- Counterexample to claim C1 as stated: on the reflective text
"i feel stressed about that meal", an LLM failure does NOT yield the
all-default analysis — `_analyze_with_llm` catches its own exception and
returns `(neutral, {})`, so `analyze_reflection` proceeds with
`is_reflective = true` and non-empty keywords. -/
theorem llm_failure_not_all_default :
    (analyze_reflection "i feel stressed about that meal"
        (Except.error ())).is_reflective = true ∧
    (analyze_reflection "i feel stressed about that meal"
        (Except.error ())).keywords = ["feel", "stressed"] := by
  constructor <;> rfl

/-- Claim C1 amended: for every reflective input text, if the
language-understanding call fails (transport error, timeout, or
unparseable/invalid JSON response), `analyze_reflection` degrades only the
classification outputs: it returns `is_reflective = true`,
`sentiment = neutral`, `tone_indicators = {}`, and the keywords extracted
from the text. -/
theorem llm_failure_degrades_claim (text : String)
    (h : is_reflective text = true) :
    analyze_reflection text (Except.error ()) =
      ⟨text, SentimentType.neutral, true, extract_keywords text, []⟩ := by
  simp [analyze_reflection, h, analyze_with_llm]

/-- Witness for the amended C1 at a concrete reflective text. -/
theorem llm_failure_degrades_claim_witness :
    is_reflective "i feel stressed about that meal" = true ∧
    analyze_reflection "i feel stressed about that meal" (Except.error ()) =
      ⟨"i feel stressed about that meal", SentimentType.neutral, true,
        extract_keywords "i feel stressed about that meal", []⟩ :=
  ⟨by decide, llm_failure_degrades_claim "i feel stressed about that meal" (by decide)⟩

/-- Claim C7: every `ReflectionAnalysis` produced by `analyze_reflection`
satisfies the invariant: `is_reflective = false` implies
`sentiment = neutral`, `keywords = []`, and `tone_indicators = {}`. -/
theorem reflection_invariant_claim (text : String) (llm : Except Unit LLMResponse)
    (h : (analyze_reflection text llm).is_reflective = false) :
    (analyze_reflection text llm).sentiment = SentimentType.neutral ∧
    (analyze_reflection text llm).keywords = [] ∧
    (analyze_reflection text llm).tone_indicators = [] := by
  by_cases hr : is_reflective text = true
  · simp [analyze_reflection, hr] at h
  · simp [analyze_reflection, hr]

/-- Witness for C7 at a non-reflective text. -/
theorem reflection_invariant_claim_witness :
    (analyze_reflection "hello" (Except.error ())).is_reflective = false ∧
    ((analyze_reflection "hello" (Except.error ())).sentiment = SentimentType.neutral ∧
     (analyze_reflection "hello" (Except.error ())).keywords = [] ∧
     (analyze_reflection "hello" (Except.error ())).tone_indicators = []) :=
  ⟨by decide, reflection_invariant_claim "hello" (Except.error ()) (by decide)⟩

/-- Claim C8: for every input text and LLM outcome, `analyze_reflection`
attempts exactly one outbound language-understanding request when the text
passes the reflective-intent keyword test and zero when it does not, and
the instrumented run computes the same result. -/
theorem llm_call_count_claim :
    ∀ (text : String) (llm : Except Unit LLMResponse),
      (analyze_reflection_traced text llm).2 =
        (if is_reflective text = true then 1 else 0) ∧
      (analyze_reflection_traced text llm).1 = analyze_reflection text llm := by
  intro text llm
  by_cases hr : is_reflective text = true <;>
    simp [analyze_reflection_traced, analyze_reflection, analyze_with_llm_traced, hr]

/-- Claim C9: for every input text, the extracted keyword tags are exactly
the trigger words occurring as case-insensitive substrings of the text,
listed in the order the trigger-word list is defined — witnessed on a text
in which the matched words appear in the opposite order. -/
theorem extract_keywords_claim :
    ∀ (text kw : String),
      (kw ∈ extract_keywords text ↔
        kw ∈ reflection_keywords ∧ strContains (lowerStr text) kw = true) ∧
      List.Sublist (extract_keywords text) reflection_keywords ∧
      extract_keywords "stressed is how i feel" = ["feel", "stressed"] := by
  intro text kw
  refine ⟨?_, ?_, ?_⟩
  · simp [extract_keywords, List.mem_filter]
  · exact List.filter_sublist _
  · rfl
